import Mathlib

/-!
# Profile resolution and bootstrap checks of `cmd/minishift/cmd/root.go`

A shallow embedding of the profile-name resolver (`initializeProfile`), the
profile guard (`checkForValidProfileOrExit`) and the post-update runner
(`performPostUpdateExecution`), with the properties the specification states
about them.

Process termination (`atexit.ExitWithMessage`) and Go's run-time panic on an
out-of-range index are explicit outcomes; the file system and the persisted
all-instances config are explicit inputs.
-/

namespace Minishift

/-! ## Outcomes of a Go call -/

/-- How a call ends: it returns a value, it terminates the process through
`atexit.ExitWithMessage code message`, or it panics with Go's
"index out of range [index] with length length". -/
inductive Outcome (α : Type) where
  | returned (value : α)
  | exited (code : Nat) (message : String)
  | indexOutOfRange (index length : Nat)
  deriving DecidableEq, Repr

/-- Go's checked slice indexing `s[i]`. -/
def index (s : List String) (i : Nat) : Outcome String :=
  match s[i]? with
  | some a => .returned a
  | none => .indexOutOfRange i s.length

/-! ## Constants of `root.go` (lines 55-62) -/

def profileCmd : String := "profile"
def profileFlag : String := "profile"
def profileSetCmd : String := "set"
def invalidProfileName : String :=
  "Profile names must consist of alphanumeric characters only."

/-- The local `profileCmdAlias` of `initializeProfile` (lines 246-249). -/
def profileCmdAlias : List String := ["profiles", "instance"]

/-! ## `initializeProfile` (lines 241-300) -/

/-- The test of lines 255 and 269:
`arg == profileCmd || arg == profileCmdAlias[0] || arg == profileCmdAlias[1]`. -/
def isProfileCmdArg (arg : String) : Bool :=
  arg == profileCmd || arg == profileCmdAlias.getD 0 "" || arg == profileCmdAlias.getD 1 ""

/-- The first loop (lines 253-258): `isProfileCmdUsed` is set as soon as one
argument is the profile command or one of its aliases. -/
def isProfileCmdUsed (osArgs : List String) : Bool :=
  osArgs.foldl (fun used arg => if isProfileCmdArg arg then true else used) false

/-- The second loop (lines 260-281), from index `i` on, `rest` being
`osArgs[i:]`. The value returned is `profileName` at the end of the loop. -/
def scanArgs (osArgs : List String) (used : Bool) : List String → Nat → Outcome String
  | [], _ => .returned ""
  | arg :: rest, i =>
    if used = false ∧ arg = "--" ++ profileFlag then
      -- profileName = os.Args[i+1]; break
      index osArgs (i + 1)
    else if isProfileCmdArg arg = true then
      if osArgs.length ≤ i + 2 then
        .returned ""
      else
        match index osArgs (i + 1) with
        | .returned next =>
          if next = profileSetCmd then index osArgs (i + 2) else .returned ""
        | .exited c m => .exited c m
        | .indexOutOfRange j n => .indexOutOfRange j n
    else
      scanArgs osArgs used rest (i + 1)

/-- The persisted all-instances config, as far as `initializeProfile` reads it. -/
structure AllInstancesConfigType where
  ActiveProfile : String
  deriving DecidableEq, Repr

/-- What `initializeProfile` finds at `constants.AllInstanceConfigPath`:
`os.Stat` reports that nothing exists there, or something is there and
`minishiftConfig.NewAllInstancesConfig` either fails with an error text or
loads the config. -/
inductive AllInstanceConfigFile where
  | notExist
  | present (load : Except String AllInstancesConfigType)

/-- Modelled from the spec: `profileActions.GetActiveProfile` is declared in
`pkg/minishift/profile`, not in this file; it yields the active-profile value
recorded in the loaded all-instances config. -/
def GetActiveProfile (cfg : AllInstancesConfigType) : String :=
  cfg.ActiveProfile

/-- Lines 283-299: load the active profile if the config is there, then pick
the profile name, the active profile or the empty string. -/
def selectProfile (profileName : String) : AllInstanceConfigFile → Outcome String
  | .notExist =>
    if profileName ≠ "" then .returned profileName else .returned ""
  | .present (.error err) =>
    .exited 1 ("Error initializing all instance config: " ++ err)
  | .present (.ok cfg) =>
    if profileName ≠ "" then .returned profileName
    else if GetActiveProfile cfg ≠ "" then .returned (GetActiveProfile cfg)
    else .returned ""

/-- The function `initializeProfile` of `root.go`, over the argument vector
`os.Args` and the state of the all-instances config file. -/
def initializeProfile (osArgs : List String) (file : AllInstanceConfigFile) : Outcome String :=
  match scanArgs osArgs (isProfileCmdUsed osArgs) osArgs 0 with
  | .returned profileName => selectProfile profileName file
  | .exited c m => .exited c m
  | .indexOutOfRange j n => .indexOutOfRange j n

/-! ## `checkForValidProfileOrExit` (lines 394-408) and its call (lines 91-94) -/

/-- A cobra command, as far as `root.go` looks at it: its name (`cmd.Name()`)
and its parent (`cmd.Parent()`, `nil` for the root command). -/
inductive Command where
  | mk (name : String) (parent : Option Command)

def Command.Name : Command → String
  | .mk name _ => name

def Command.Parent : Command → Option Command
  | .mk _ parent => parent

/-- The root command (lines 75-78): `Use: "minishift"`, no parent. -/
def RootCmd : Command := .mk "minishift" none

/-- Modelled from the spec: `startCmd` is declared in `start.go`, not in this
file; it is the cluster-start command `start`, a child of the root command. -/
def startCmd : Command := .mk "start" (some RootCmd)

/-- Modelled from the spec: `constants.DefaultProfileName` is declared in
`pkg/minikube/constants`, not in this file; it is the reserved default profile
name, `minishift` in the comments of lines 91 and 386. -/
def DefaultProfileName : String := "minishift"

/-- One character of the class `[A-Za-z0-9]`. -/
def isAlphanumeric (c : Char) : Bool :=
  ('A' ≤ c && c ≤ 'Z') || ('a' ≤ c && c ≤ 'z') || ('0' ≤ c && c ≤ '9')

/-- Modelled from the spec: `cmdUtil.IsValidProfileName` is declared in
`cmd/minishift/cmd/util`, not in this file; a profile name is valid when it
matches `^[A-Za-z0-9]+$`, one or more characters, all of them alphanumeric. -/
def IsValidProfileName (profileName : String) : Bool :=
  !profileName.toList.isEmpty && profileName.toList.all isAlphanumeric

/-- The message of line 404. -/
def profileDoesNotExist (profileName : String) : String :=
  "Profile '" ++ profileName ++ "' doesn't exist, Use 'minishift profile set " ++ profileName
    ++ "' or 'minishift start --profile " ++ profileName ++ "' to create"

/-- The function `checkForValidProfileOrExit` of `root.go`, over the command
being run, the value of `constants.ProfileName`, and `cmdUtil.IsValidProfile`
(whether a profile of that name exists on disk; declared outside this file). -/
def checkForValidProfileOrExit (cmd : Command) (ProfileName : String)
    (IsValidProfile : String → Bool) : Outcome Unit :=
  if IsValidProfileName ProfileName = false then
    .exited 1 invalidProfileName
  else
    match cmd.Parent with
    | some parent =>
      if parent.Name ≠ profileCmd ∧ cmd.Name ≠ startCmd.Name then
        if IsValidProfile ProfileName = false then
          .exited 1 (profileDoesNotExist ProfileName)
        else
          .returned ()
      else
        .returned ()
    | none => .returned ()

/-- Lines 91-94 of `PersistentPreRun`: the profile is checked unless it is the
default profile. -/
def persistentPreRunProfileCheck (cmd : Command) (ProfileName : String)
    (IsValidProfile : String → Bool) : Outcome Unit :=
  if ProfileName ≠ DefaultProfileName then
    checkForValidProfileOrExit cmd ProfileName IsValidProfile
  else
    .returned ()

/-! ## `performPostUpdateExecution` (lines 329-352) and its call (lines 135-140) -/

/-- What is at a path: nothing, something that cannot be read, or a file with
its content. -/
inductive FileState where
  | absent
  | unreadable
  | readable (content : String)
  deriving DecidableEq, Repr

/-- The part of the machine that the post-update step reads and writes. -/
structure World where
  /-- The file system. -/
  file : String → FileState
  /-- The error, if any, with which the system refuses to delete what is at a path. -/
  removeError : String → Option String
  /-- The target directories of the calls of the add-on installer, oldest first. -/
  unpacked : List String
  /-- What has been printed on standard output, oldest first. -/
  stdout : List String

/-- Modelled from the spec: the type `UpdateMarker` is declared in `update.go`,
not in this file; the marker holds `PreviousVersion` and `InstallAddon`. -/
structure UpdateMarker where
  PreviousVersion : String
  InstallAddon : Bool
  deriving DecidableEq, Repr

/-- What `performPostUpdateExecution` takes from outside `root.go`. -/
structure Collaborators where
  /-- The value of `markerData` after `json.Unmarshal(file, &markerData)` on a
  zero-valued marker (the error of `json.Unmarshal` is dropped at line 337). -/
  jsonUnmarshal : String → UpdateMarker
  /-- The files as `cmdUtil.UnpackAddons dir` leaves them. -/
  unpackFiles : String → (String → FileState) → (String → FileState)
  /-- The value of `state.InstanceDirs.Addons`. -/
  addonsDir : String
  /-- The value of `version.GetMinishiftVersion()`. -/
  minishiftVersion : String
  /-- The value of `cmdUtil.DefaultAssets`. -/
  defaultAssets : List String

/-- The call `ioutil.ReadFile path`. -/
def ioutil.ReadFile (w : World) (path : String) : Except String String :=
  match w.file path with
  | .absent => .error ("open " ++ path ++ ": no such file or directory")
  | .unreadable => .error ("open " ++ path ++ ": permission denied")
  | .readable content => .ok content

/-- The call `os.Remove path`: the error (`none` for `nil`) and the world after. -/
def os.Remove (path : String) (w : World) : Option String × World :=
  match w.file path with
  | .absent => (some ("remove " ++ path ++ ": no such file or directory"), w)
  | _ =>
    match w.removeError path with
    | some err => (some err, w)
    | none => (none, { w with file := Function.update w.file path .absent })

/-- Modelled from the spec: `filehelper.Exists` is declared in
`pkg/util/filehelper`, not in this file; it tells whether a file or directory
exists at the path. -/
def filehelper.Exists (w : World) (path : String) : Bool :=
  match w.file path with
  | .absent => false
  | _ => true

def fmt.Println (line : String) (w : World) : World :=
  { w with stdout := w.stdout ++ [line ++ "\n"] }

def fmt.Print (text : String) (w : World) : World :=
  { w with stdout := w.stdout ++ [text] }

/-- Modelled from the spec: `cmdUtil.UnpackAddons` is declared in
`cmd/minishift/cmd/util`, not in this file; it is the add-on installer, which
unpacks the default add-ons into the target directory. Each call is recorded. -/
def cmdUtil.UnpackAddons (env : Collaborators) (dir : String) (w : World) : World :=
  { w with file := env.unpackFiles dir w.file, unpacked := w.unpacked ++ [dir] }

/-- Lines 338-344: the post update actions, run when the marker asks for them. -/
def postUpdateActions (env : Collaborators) (markerData : UpdateMarker) (w : World) : World :=
  if markerData.InstallAddon = true then
    let w1 := fmt.Println ("Minishift was upgraded from v" ++ markerData.PreviousVersion ++ " to v"
      ++ env.minishiftVersion ++ ". Running post update actions.") w
    let w2 := fmt.Print "--- Updating default add-ons ... " w1
    let w3 := cmdUtil.UnpackAddons env env.addonsDir w2
    let w4 := fmt.Println "OK" w3
    fmt.Println ("Default add-ons '" ++ ", ".intercalate env.defaultAssets ++ "' installed") w4
  else
    w

/-- The function `performPostUpdateExecution` of `root.go`: the error it
returns (`none` for `nil`) and the world after the call. -/
def performPostUpdateExecution (env : Collaborators) (markerPath : String) (w : World) :
    Option String × World :=
  match ioutil.ReadFile w markerPath with
  | .error err => (some err, w)
  | .ok file =>
    let markerData := env.jsonUnmarshal file
    let w1 := postUpdateActions env markerData w
    -- Delete the marker file once post update execution is done
    match os.Remove markerPath w1 with
    | (some err, w2) => (some err, w2)
    | (none, w2) => (none, w2)

/-- Lines 135-140 of `PersistentPreRun`: the post update execution is run when
the marker file exists, and its error ends the process. -/
def persistentPreRunPostUpdate (env : Collaborators) (markerPath : String) (w : World) :
    Outcome Unit × World :=
  if filehelper.Exists w markerPath = true then
    match performPostUpdateExecution env markerPath w with
    | (some err, w1) => (.exited 1 ("Error in performing post update exeuction: " ++ err), w1)
    | (none, w1) => (.returned (), w1)
  else
    (.returned (), w)

/-! ## A concrete machine for the post-update runner -/

/-- The marker path of a default profile. -/
def sampleMarkerPath : String := "/home/dev/.minishift/updated"

/-- The content of a marker that asks for the add-ons to be installed. -/
def sampleMarker : String :=
  "\x7b\"PreviousVersion\":\"1.9.0\",\"InstallAddon\":true\x7d"

/-- Collaborators that decode `sampleMarker`, and any other content to the zero
marker, and that unpack one add-on file into the target directory. -/
def sampleCollaborators : Collaborators where
  jsonUnmarshal := fun content =>
    if content = sampleMarker then ⟨"1.9.0", true⟩ else ⟨"", false⟩
  unpackFiles := fun dir files =>
    Function.update files (dir ++ "/anyuid/anyuid.addon") (.readable "# Name: anyuid")
  addonsDir := "/home/dev/.minishift/addons"
  minishiftVersion := "1.10.0"
  defaultAssets := ["anyuid", "admin-user"]

/-- A machine whose only file is the marker, with the given content. -/
def sampleWorld (content : String) : World where
  file := fun path => if path = sampleMarkerPath then .readable content else .absent
  removeError := fun _ => none
  unpacked := []
  stdout := []

/-- A machine without any file. -/
def emptyWorld : World where
  file := fun _ => .absent
  removeError := fun _ => none
  unpacked := []
  stdout := []

/-! ## Auxiliary facts about the argument scan -/

theorem foldl_isProfileCmdUsed (l : List String) (b : Bool) :
    l.foldl (fun used arg => if isProfileCmdArg arg then true else used) b
      = (b || l.any isProfileCmdArg) := by
  induction l generalizing b with
  | nil => simp
  | cons a l ih =>
    simp only [List.foldl_cons, List.any_cons, ih]
    cases b <;> cases isProfileCmdArg a <;> simp

theorem isProfileCmdUsed_eq_any (l : List String) :
    isProfileCmdUsed l = l.any isProfileCmdArg := by
  unfold isProfileCmdUsed
  rw [foldl_isProfileCmdUsed]
  simp

theorem isProfileCmdUsed_eq_false_iff (l : List String) :
    isProfileCmdUsed l = false ↔ ∀ a ∈ l, isProfileCmdArg a = false := by
  simp [isProfileCmdUsed_eq_any]

theorem isProfileCmdUsed_of_mem (l : List String) (a : String) (ha : a ∈ l)
    (htok : isProfileCmdArg a = true) : isProfileCmdUsed l = true := by
  rw [isProfileCmdUsed_eq_any, List.any_eq_true]
  exact ⟨a, ha, htok⟩

theorem index_append_add (pre l : List String) (k : Nat) (a : String)
    (h : l[k]? = some a) : index (pre ++ l) (pre.length + k) = .returned a := by
  have : (pre ++ l)[pre.length + k]? = some a := by
    rw [List.getElem?_append_right (Nat.le_add_right _ _)]
    simpa using h
  simp [index, this]

theorem index_length (s : List String) : index s s.length = .indexOutOfRange s.length s.length := by
  simp [index]

/-- Arguments that are neither a profile command nor (when the flag is
looked at) `--profile` are stepped over. -/
theorem scanArgs_skip (osArgs : List String) (used : Bool) (mid rest : List String) (i : Nat)
    (h : ∀ a ∈ mid, isProfileCmdArg a = false ∧ (used = false → a ≠ "--" ++ profileFlag)) :
    scanArgs osArgs used (mid ++ rest) i = scanArgs osArgs used rest (i + mid.length) := by
  induction mid generalizing i with
  | nil => simp
  | cons a mid ih =>
    have ha := h a (List.mem_cons_self _ _)
    have hm : ∀ b ∈ mid, isProfileCmdArg b = false ∧ (used = false → b ≠ "--" ++ profileFlag) :=
      fun b hb => h b (List.mem_cons_of_mem _ hb)
    have h1 : ¬ (used = false ∧ a = "--" ++ profileFlag) := fun hc => ha.2 hc.1 hc.2
    rw [List.cons_append, scanArgs]
    simp only [h1, ha.1, if_false, Bool.false_eq_true]
    rw [ih (i + 1) hm]
    simp only [List.length_cons]
    congr 1
    omega

theorem isProfileCmdArg_ne_flag (tok : String) (htok : isProfileCmdArg tok = true) :
    tok ≠ "--" ++ profileFlag := by
  intro h
  subst h
  revert htok
  decide

/-- What the scan yields when a profile command stands at the head of the
remaining arguments. -/
theorem scanArgs_at_profileCmd (pre : List String) (used : Bool) (tok : String)
    (rest : List String) (htok : isProfileCmdArg tok = true) :
    scanArgs (pre ++ tok :: rest) used (tok :: rest) pre.length =
      match rest with
      | next :: name :: _ => if next = profileSetCmd then .returned name else .returned ""
      | _ => .returned "" := by
  have hne := isProfileCmdArg_ne_flag tok htok
  match rest with
  | [] => simp [scanArgs, htok, hne]
  | [x] => simp [scanArgs, htok, hne]
  | next :: name :: post =>
    have hlen : ¬ ((pre ++ tok :: next :: name :: post).length ≤ pre.length + 2) := by
      simp only [List.length_append, List.length_cons]; omega
    have h1 : index (pre ++ tok :: next :: name :: post) (pre.length + 1) = .returned next :=
      index_append_add pre _ 1 next (by simp)
    have h2 : index (pre ++ tok :: next :: name :: post) (pre.length + 2) = .returned name :=
      index_append_add pre _ 2 name (by simp)
    simp only [scanArgs, htok, hne, hlen, h1, h2, if_false, if_true, and_false]

/-- The scan of a vector whose first profile command is `tok`. -/
theorem scanArgs_first_profileCmd (pre : List String) (tok : String) (rest : List String)
    (hpre : ∀ a ∈ pre, isProfileCmdArg a = false) (htok : isProfileCmdArg tok = true) :
    scanArgs (pre ++ tok :: rest) (isProfileCmdUsed (pre ++ tok :: rest)) (pre ++ tok :: rest) 0 =
      match rest with
      | next :: name :: _ => if next = profileSetCmd then .returned name else .returned ""
      | _ => .returned "" := by
  have hused : isProfileCmdUsed (pre ++ tok :: rest) = true :=
    isProfileCmdUsed_of_mem _ tok (by simp) htok
  rw [hused, scanArgs_skip _ true pre (tok :: rest) 0 (fun a ha => ⟨hpre a ha, by simp⟩)]
  simpa using scanArgs_at_profileCmd pre true tok rest htok

/-- The scan of a vector without any profile command whose first `--profile`
is followed by `name`. -/
theorem scanArgs_first_flag (pre : List String) (name : String) (post : List String)
    (hflag : ("--" ++ profileFlag) ∉ pre)
    (hno : ∀ a ∈ pre ++ ("--" ++ profileFlag) :: name :: post, isProfileCmdArg a = false) :
    scanArgs (pre ++ ("--" ++ profileFlag) :: name :: post)
      (isProfileCmdUsed (pre ++ ("--" ++ profileFlag) :: name :: post))
      (pre ++ ("--" ++ profileFlag) :: name :: post) 0 = .returned name := by
  have hused := (isProfileCmdUsed_eq_false_iff _).2 hno
  rw [hused, scanArgs_skip _ false pre _ 0
    (fun a ha => ⟨hno a (by simp [ha]), fun _ hc => hflag (hc ▸ ha)⟩)]
  have h1 := index_append_add pre (("--" ++ profileFlag) :: name :: post) 1 name (by simp)
  simp only [Nat.zero_add, scanArgs, true_and, if_true]
  exact h1

/-- The scan of a vector with neither a profile command nor `--profile`. -/
theorem scanArgs_plain (osArgs : List String)
    (hflag : ("--" ++ profileFlag) ∉ osArgs)
    (hno : ∀ a ∈ osArgs, isProfileCmdArg a = false) :
    scanArgs osArgs (isProfileCmdUsed osArgs) osArgs 0 = .returned "" := by
  have hused := (isProfileCmdUsed_eq_false_iff _).2 hno
  have := scanArgs_skip osArgs (isProfileCmdUsed osArgs) osArgs [] 0
    (fun a ha => ⟨hno a ha, fun _ hc => hflag (hc ▸ ha)⟩)
  simpa [scanArgs] using this


/-- An out-of-range read in the scan happens only at a `--profile` that is the
last argument, reached with the flag being looked at. -/
theorem scanArgs_indexOutOfRange (pre rest : List String) (used : Bool) (j n : Nat)
    (h : scanArgs (pre ++ rest) used rest pre.length = .indexOutOfRange j n) :
    used = false ∧ ∃ mid, rest = mid ++ ["--" ++ profileFlag] ∧ ("--" ++ profileFlag) ∉ mid := by
  induction rest generalizing pre with
  | nil => simp [scanArgs] at h
  | cons arg rest ih =>
    by_cases hc : used = false ∧ arg = "--" ++ profileFlag
    · rw [scanArgs, if_pos hc] at h
      obtain ⟨hu, rfl⟩ := hc
      cases rest with
      | nil => exact ⟨hu, [], by simp, by simp⟩
      | cons y r =>
        rw [index_append_add pre _ 1 y (by simp)] at h
        cases h
    · by_cases ht : isProfileCmdArg arg = true
      · rw [scanArgs_at_profileCmd pre used arg rest ht] at h
        split at h
        · split at h <;> cases h
        · cases h
      · rw [scanArgs, if_neg hc, if_neg ht] at h
        have h2 : scanArgs ((pre ++ [arg]) ++ rest) used rest (pre ++ [arg]).length
            = .indexOutOfRange j n := by
          simpa using h
        obtain ⟨hu, mid, hmid, hnot⟩ := ih (pre ++ [arg]) h2
        refine ⟨hu, arg :: mid, by simp [hmid], ?_⟩
        intro hmem
        rcases List.mem_cons.1 hmem with h3 | h3
        · exact hc ⟨hu, h3.symm⟩
        · exact hnot h3

theorem selectProfile_of_ne_empty (profileName : String) (h : profileName ≠ "") :
    selectProfile profileName .notExist = .returned profileName ∧
    ∀ cfg, selectProfile profileName (.present (.ok cfg)) = .returned profileName := by
  simp [selectProfile, h]

theorem selectProfile_empty :
    selectProfile "" .notExist = .returned "" ∧
    ∀ cfg, selectProfile "" (.present (.ok cfg)) = .returned cfg.ActiveProfile := by
  refine ⟨by simp [selectProfile], fun cfg => ?_⟩
  by_cases h : cfg.ActiveProfile = "" <;> simp [selectProfile, GetActiveProfile, h]

theorem selectProfile_ne_indexOutOfRange (profileName : String) (file : AllInstanceConfigFile)
    (j n : Nat) : selectProfile profileName file ≠ .indexOutOfRange j n := by
  match file with
  | .notExist => by_cases h : profileName = "" <;> simp [selectProfile, h]
  | .present (.error err) => simp [selectProfile]
  | .present (.ok cfg) =>
    simp only [selectProfile]
    split
    · simp
    · split <;> simp

/-- When the scan ends with `profileName`, the result is chosen by lines 283-299. -/
theorem initializeProfile_of_scan (osArgs : List String) (profileName : String)
    (file : AllInstanceConfigFile)
    (h : scanArgs osArgs (isProfileCmdUsed osArgs) osArgs 0 = .returned profileName) :
    initializeProfile osArgs file = selectProfile profileName file := by
  simp [initializeProfile, h]

/-- A config file that is there and does not load ends the process, unless the
scan has panicked before. -/
theorem initializeProfile_load_error (osArgs : List String) (profileName err : String)
    (h : scanArgs osArgs (isProfileCmdUsed osArgs) osArgs 0 = .returned profileName) :
    initializeProfile osArgs (.present (.error err))
      = .exited 1 ("Error initializing all instance config: " ++ err) := by
  simp [initializeProfile, h, selectProfile]

/-! ## The profile name resolver -/

/-- C1, as amended: when the FIRST profile command of the argument vector
(`profile`, `profiles` or `instance`) is immediately followed by `set` and a
non-empty name `X`, `initializeProfile` returns `X`, whatever stands before the
profile command (a `--profile` flag included) and after the name, and whether
no all-instances config is persisted or one with any active profile is. -/
theorem initializeProfile_first_profileCmd_set (pre post : List String) (tok X : String)
    (hpre : ∀ a ∈ pre, isProfileCmdArg a = false) (htok : isProfileCmdArg tok = true)
    (hX : X ≠ "") :
    initializeProfile (pre ++ tok :: profileSetCmd :: X :: post) .notExist = .returned X ∧
    ∀ cfg, initializeProfile (pre ++ tok :: profileSetCmd :: X :: post) (.present (.ok cfg))
      = .returned X := by
  have hscan := scanArgs_first_profileCmd pre tok (profileSetCmd :: X :: post) hpre htok
  simp only [if_true] at hscan
  have hsel := selectProfile_of_ne_empty X hX
  exact ⟨(initializeProfile_of_scan _ X _ hscan).trans hsel.1,
    fun cfg => (initializeProfile_of_scan _ X _ hscan).trans (hsel.2 cfg)⟩

theorem initializeProfile_first_profileCmd_set_witness :
    initializeProfile (["minishift", "--profile", "other"] ++
        "profile" :: profileSetCmd :: "abc" :: ["--show-libmachine-logs"]) .notExist
      = .returned "abc" ∧
    ∀ cfg, initializeProfile (["minishift", "--profile", "other"] ++
        "profile" :: profileSetCmd :: "abc" :: ["--show-libmachine-logs"]) (.present (.ok cfg))
      = .returned "abc" :=
  initializeProfile_first_profileCmd_set ["minishift", "--profile", "other"]
    ["--show-libmachine-logs"] "profile" "abc" (by decide) (by decide) (by decide)

/-- C1 fails as stated: `instance profile set dev` contains `profile set dev`,
yet the first profile command, `instance`, is not followed by `set` and the
persisted active profile is returned; and after `profile set` an empty name
yields the persisted active profile, not the empty name. -/
theorem initializeProfile_profile_set_not_returned :
    initializeProfile ["minishift", "instance", "profile", "set", "dev"]
      (.present (.ok ⟨"prod"⟩)) = .returned "prod" ∧
    initializeProfile ["minishift", "instance", "profile", "set", "dev"] .notExist
      = .returned "" ∧
    initializeProfile ["minishift", "profile", "set", ""] (.present (.ok ⟨"prod"⟩))
      = .returned "prod" := by
  decide

/-- C2, as amended: when the argument vector holds no profile command and its
FIRST `--profile` is immediately followed by a non-empty name `Y`,
`initializeProfile` returns `Y`, whether no all-instances config is persisted
or one with any active profile is. -/
theorem initializeProfile_first_flag (pre post : List String) (Y : String)
    (hflag : ("--" ++ profileFlag) ∉ pre)
    (hno : ∀ a ∈ pre ++ ("--" ++ profileFlag) :: Y :: post, isProfileCmdArg a = false)
    (hY : Y ≠ "") :
    initializeProfile (pre ++ ("--" ++ profileFlag) :: Y :: post) .notExist = .returned Y ∧
    ∀ cfg, initializeProfile (pre ++ ("--" ++ profileFlag) :: Y :: post) (.present (.ok cfg))
      = .returned Y := by
  have hscan := scanArgs_first_flag pre Y post hflag hno
  have hsel := selectProfile_of_ne_empty Y hY
  exact ⟨(initializeProfile_of_scan _ Y _ hscan).trans hsel.1,
    fun cfg => (initializeProfile_of_scan _ Y _ hscan).trans (hsel.2 cfg)⟩

theorem initializeProfile_first_flag_witness :
    initializeProfile (["minishift"] ++ ("--" ++ profileFlag) :: "abc" :: ["start"]) .notExist
      = .returned "abc" ∧
    ∀ cfg, initializeProfile (["minishift"] ++ ("--" ++ profileFlag) :: "abc" :: ["start"])
      (.present (.ok cfg)) = .returned "abc" :=
  initializeProfile_first_flag ["minishift"] ["start"] "abc" (by decide) (by decide) (by decide)

/-- C2 fails as stated: in `--profile a --profile b` the vector contains
`--profile b` and no profile command, yet `a` is returned; and an empty name
after `--profile` yields the persisted active profile, not the empty name. -/
theorem initializeProfile_flag_not_returned :
    initializeProfile ["minishift", "--profile", "a", "--profile", "b", "start"] .notExist
      = .returned "a" ∧
    initializeProfile ["minishift", "--profile", "", "start"] (.present (.ok ⟨"prod"⟩))
      = .returned "prod" := by
  decide

/-- C3: when the first profile command of the argument vector is its last
argument, `initializeProfile` takes no name from the arguments and reads no
index past the end: it returns the empty string when no all-instances config
is persisted and the persisted active profile when one is. -/
theorem initializeProfile_profileCmd_last (pre : List String) (tok : String)
    (hpre : ∀ a ∈ pre, isProfileCmdArg a = false) (htok : isProfileCmdArg tok = true) :
    initializeProfile (pre ++ [tok]) .notExist = .returned "" ∧
    (∀ cfg, initializeProfile (pre ++ [tok]) (.present (.ok cfg))
      = .returned cfg.ActiveProfile) ∧
    ∀ file j n, initializeProfile (pre ++ [tok]) file ≠ .indexOutOfRange j n := by
  have hscan := scanArgs_first_profileCmd pre tok [] hpre htok
  simp only at hscan
  refine ⟨(initializeProfile_of_scan _ "" _ hscan).trans selectProfile_empty.1,
    fun cfg => (initializeProfile_of_scan _ "" _ hscan).trans (selectProfile_empty.2 cfg), ?_⟩
  intro file j n
  rw [initializeProfile_of_scan _ "" file hscan]
  exact selectProfile_ne_indexOutOfRange "" file j n

theorem initializeProfile_profileCmd_last_witness :
    initializeProfile (["minishift", "--profile", "abc"] ++ ["profiles"]) .notExist
      = .returned "" ∧
    (∀ cfg, initializeProfile (["minishift", "--profile", "abc"] ++ ["profiles"])
      (.present (.ok cfg)) = .returned cfg.ActiveProfile) ∧
    ∀ file j n, initializeProfile (["minishift", "--profile", "abc"] ++ ["profiles"]) file
      ≠ .indexOutOfRange j n :=
  initializeProfile_profileCmd_last ["minishift", "--profile", "abc"] "profiles"
    (by decide) (by decide)

/-- C4: when the argument vector holds neither `--profile` nor a profile
command, `initializeProfile` returns the active profile recorded in the
all-instances config when the file exists and loads, and the empty string
when the file is absent or the recorded active profile is empty. -/
theorem initializeProfile_no_profile_args (osArgs : List String)
    (hflag : ("--" ++ profileFlag) ∉ osArgs)
    (hno : ∀ a ∈ osArgs, isProfileCmdArg a = false) :
    (∀ cfg, initializeProfile osArgs (.present (.ok cfg)) = .returned cfg.ActiveProfile) ∧
    initializeProfile osArgs .notExist = .returned "" ∧
    ∀ cfg, cfg.ActiveProfile = "" →
      initializeProfile osArgs (.present (.ok cfg)) = .returned "" := by
  have hscan := scanArgs_plain osArgs hflag hno
  have hok : ∀ cfg, initializeProfile osArgs (.present (.ok cfg)) = .returned cfg.ActiveProfile :=
    fun cfg => (initializeProfile_of_scan _ "" _ hscan).trans (selectProfile_empty.2 cfg)
  exact ⟨hok, (initializeProfile_of_scan _ "" _ hscan).trans selectProfile_empty.1,
    fun cfg hcfg => by rw [hok cfg, hcfg]⟩

theorem initializeProfile_no_profile_args_witness :
    (∀ cfg, initializeProfile ["minishift", "start", "--vm-driver", "kvm"] (.present (.ok cfg))
      = .returned cfg.ActiveProfile) ∧
    initializeProfile ["minishift", "start", "--vm-driver", "kvm"] .notExist = .returned "" ∧
    ∀ cfg, cfg.ActiveProfile = "" →
      initializeProfile ["minishift", "start", "--vm-driver", "kvm"] (.present (.ok cfg))
        = .returned "" :=
  initializeProfile_no_profile_args ["minishift", "start", "--vm-driver", "kvm"]
    (by decide) (by decide)

/-- C9: when the argument vector holds a profile command at any position, also
after a `--profile Y` flag, and the first profile command is not followed by
`set` and a further argument, `initializeProfile` ignores the flag: it returns
the persisted active profile, and the empty string when no config is persisted
(or none is recorded in it). -/
theorem initializeProfile_profileCmd_ignores_flag (pre rest : List String) (tok : String)
    (hpre : ∀ a ∈ pre, isProfileCmdArg a = false) (htok : isProfileCmdArg tok = true)
    (hrest : ¬ ∃ X post, rest = profileSetCmd :: X :: post) :
    initializeProfile (pre ++ tok :: rest) .notExist = .returned "" ∧
    ∀ cfg, initializeProfile (pre ++ tok :: rest) (.present (.ok cfg))
      = .returned cfg.ActiveProfile := by
  have hscan : scanArgs (pre ++ tok :: rest) (isProfileCmdUsed (pre ++ tok :: rest))
      (pre ++ tok :: rest) 0 = .returned "" := by
    rw [scanArgs_first_profileCmd pre tok rest hpre htok]
    split
    · rename_i next name post
      have hne : next ≠ profileSetCmd := fun h => hrest ⟨name, post, by rw [h]⟩
      simp [hne]
    · rfl
  exact ⟨(initializeProfile_of_scan _ "" _ hscan).trans selectProfile_empty.1,
    fun cfg => (initializeProfile_of_scan _ "" _ hscan).trans (selectProfile_empty.2 cfg)⟩

theorem initializeProfile_profileCmd_ignores_flag_witness :
    initializeProfile (["minishift", "--profile", "abc"] ++ "profile" :: ["list"]) .notExist
      = .returned "" ∧
    ∀ cfg, initializeProfile (["minishift", "--profile", "abc"] ++ "profile" :: ["list"])
      (.present (.ok cfg)) = .returned cfg.ActiveProfile :=
  initializeProfile_profileCmd_ignores_flag ["minishift", "--profile", "abc"] ["list"] "profile"
    (by decide) (by decide) (by simp [profileSetCmd])

/-- C10: `initializeProfile` reads the element one past the end of the
argument vector, which is a run-time panic and so no profile name, when the
vector holds no profile command and its first `--profile` is its last
argument; for every other argument vector no read is out of range. -/
theorem initializeProfile_indexOutOfRange (osArgs : List String) (file : AllInstanceConfigFile) :
    (((∀ a ∈ osArgs, isProfileCmdArg a = false) ∧
        ∃ pre, osArgs = pre ++ ["--" ++ profileFlag] ∧ ("--" ++ profileFlag) ∉ pre) →
      initializeProfile osArgs file = .indexOutOfRange osArgs.length osArgs.length) ∧
    (¬ ((∀ a ∈ osArgs, isProfileCmdArg a = false) ∧
        ∃ pre, osArgs = pre ++ ["--" ++ profileFlag] ∧ ("--" ++ profileFlag) ∉ pre) →
      ∀ j n, initializeProfile osArgs file ≠ .indexOutOfRange j n) := by
  constructor
  · rintro ⟨hno, pre, rfl, hflag⟩
    have hused := (isProfileCmdUsed_eq_false_iff _).2 hno
    have hskip := scanArgs_skip (pre ++ ["--" ++ profileFlag]) false pre ["--" ++ profileFlag] 0
      (fun a ha => ⟨hno a (by simp [ha]), fun _ hc => hflag (hc ▸ ha)⟩)
    have hidx := index_length (pre ++ ["--" ++ profileFlag])
    simp only [List.length_append, List.length_singleton] at hidx
    have hscan : scanArgs (pre ++ ["--" ++ profileFlag])
        (isProfileCmdUsed (pre ++ ["--" ++ profileFlag])) (pre ++ ["--" ++ profileFlag]) 0
        = .indexOutOfRange (pre.length + 1) (pre.length + 1) := by
      rw [hused, hskip]
      simp only [Nat.zero_add, scanArgs, true_and, if_true]
      exact hidx
    simp [initializeProfile, hscan]
  · intro hnot j n h
    apply hnot
    have hscan : scanArgs ([] ++ osArgs) (isProfileCmdUsed osArgs) osArgs ([] : List String).length
        = .indexOutOfRange j n := by
      simp only [List.nil_append, List.length_nil]
      unfold initializeProfile at h
      split at h
      · exact absurd h (selectProfile_ne_indexOutOfRange _ _ _ _)
      · cases h
      · rename_i heq
        rw [heq, h]
    obtain ⟨hused, mid, hmid, hflag⟩ := scanArgs_indexOutOfRange [] osArgs _ j n hscan
    exact ⟨(isProfileCmdUsed_eq_false_iff _).1 hused, mid, hmid, hflag⟩

theorem initializeProfile_indexOutOfRange_witness :
    initializeProfile ["minishift", "start", "--profile"] .notExist = .indexOutOfRange 3 3 ∧
    ∀ j n, initializeProfile ["minishift", "profile", "--profile"] .notExist
      ≠ .indexOutOfRange j n :=
  ⟨(initializeProfile_indexOutOfRange ["minishift", "start", "--profile"] .notExist).1
      ⟨by decide, ["minishift", "start"], by decide, by decide⟩,
    (initializeProfile_indexOutOfRange ["minishift", "profile", "--profile"] .notExist).2
      (fun h => absurd (h.1 "profile" (by simp)) (by decide))⟩

/-! ## The profile guard -/

theorem IsValidProfileName_eq_false (profileName : String)
    (h : ∃ c ∈ profileName.toList, isAlphanumeric c = false) :
    IsValidProfileName profileName = false := by
  obtain ⟨c, hc, hnot⟩ := h
  have hall : profileName.toList.all isAlphanumeric = false := by
    rw [List.all_eq_false]
    exact ⟨c, hc, by simp [hnot]⟩
  rw [IsValidProfileName, hall, Bool.and_false]

/-- C5: for a profile name that is not the default one and contains a
character outside `[A-Za-z0-9]`, so that it does not match `^[A-Za-z0-9]+$`,
the profile check of `PersistentPreRun`, and `checkForValidProfileOrExit`
itself, end the process with exit code 1 and the fixed message, whichever
command is run and whether or not the profile exists on disk. -/
theorem checkForValidProfileOrExit_invalid_name (cmd : Command) (ProfileName : String)
    (IsValidProfile : String → Bool)
    (hdefault : ProfileName ≠ DefaultProfileName)
    (hchar : ∃ c ∈ ProfileName.toList, isAlphanumeric c = false) :
    IsValidProfileName ProfileName = false ∧
    checkForValidProfileOrExit cmd ProfileName IsValidProfile
      = .exited 1 "Profile names must consist of alphanumeric characters only." ∧
    persistentPreRunProfileCheck cmd ProfileName IsValidProfile
      = .exited 1 "Profile names must consist of alphanumeric characters only." := by
  have hname := IsValidProfileName_eq_false ProfileName hchar
  have hcheck : checkForValidProfileOrExit cmd ProfileName IsValidProfile
      = .exited 1 "Profile names must consist of alphanumeric characters only." := by
    simp [checkForValidProfileOrExit, hname, invalidProfileName]
  exact ⟨hname, hcheck, by simp [persistentPreRunProfileCheck, hdefault, hcheck]⟩

theorem checkForValidProfileOrExit_invalid_name_witness :
    IsValidProfileName "my-profile" = false ∧
    checkForValidProfileOrExit startCmd "my-profile" (fun _ => true)
      = .exited 1 "Profile names must consist of alphanumeric characters only." ∧
    persistentPreRunProfileCheck startCmd "my-profile" (fun _ => true)
      = .exited 1 "Profile names must consist of alphanumeric characters only." :=
  checkForValidProfileOrExit_invalid_name startCmd "my-profile" (fun _ => true) (by decide)
    ⟨'-', by decide, by decide⟩

/-- C6, as amended: for a profile that is not the default one, has a valid
name and does not exist on disk, the profile check ends the process with exit
code 1 and the "Profile ... doesn't exist" message exactly when the command
has a parent command, that parent is not named `profile`, and the command is
not named `start`; otherwise (the command is `start`, a subcommand of
`profile`, or has no parent), and for every profile that exists, the check
succeeds. -/
theorem persistentPreRunProfileCheck_missing_profile (cmd : Command) (ProfileName : String)
    (IsValidProfile : String → Bool)
    (hdefault : ProfileName ≠ DefaultProfileName)
    (hname : IsValidProfileName ProfileName = true) :
    (IsValidProfile ProfileName = false →
      ((∃ parent, cmd.Parent = some parent ∧ parent.Name ≠ profileCmd
            ∧ cmd.Name ≠ startCmd.Name) →
        persistentPreRunProfileCheck cmd ProfileName IsValidProfile
          = .exited 1 ("Profile '" ++ ProfileName ++ "' doesn't exist, Use 'minishift profile set "
              ++ ProfileName ++ "' or 'minishift start --profile " ++ ProfileName
              ++ "' to create")) ∧
      (¬ (∃ parent, cmd.Parent = some parent ∧ parent.Name ≠ profileCmd
            ∧ cmd.Name ≠ startCmd.Name) →
        persistentPreRunProfileCheck cmd ProfileName IsValidProfile = .returned ())) ∧
    (IsValidProfile ProfileName = true →
      persistentPreRunProfileCheck cmd ProfileName IsValidProfile = .returned ()) := by
  simp only [persistentPreRunProfileCheck, hdefault, ne_eq, not_false_eq_true, if_true,
    checkForValidProfileOrExit, hname, Bool.true_eq_false, if_false]
  refine ⟨fun hmissing => ⟨?_, ?_⟩, fun hexists => ?_⟩
  · rintro ⟨parent, hparent, hp, hs⟩
    simp [hparent, hp, hs, hmissing, profileDoesNotExist]
  · intro hnot
    cases hparent : cmd.Parent with
    | none => simp
    | some parent =>
      have : ¬ (¬ parent.Name = profileCmd ∧ ¬ cmd.Name = startCmd.Name) :=
        fun hc => hnot ⟨parent, hparent, hc.1, hc.2⟩
      simp [this]
  · cases hparent : cmd.Parent with
    | none => simp
    | some parent =>
      by_cases hc : ¬ parent.Name = profileCmd ∧ ¬ cmd.Name = startCmd.Name
      · simp [hc, hexists]
      · simp [hc]

theorem persistentPreRunProfileCheck_missing_profile_witness :
    ((fun _ => false : String → Bool) "abc" = false →
      ((∃ parent, (Command.mk "status" (some RootCmd)).Parent = some parent
            ∧ parent.Name ≠ profileCmd
            ∧ (Command.mk "status" (some RootCmd)).Name ≠ startCmd.Name) →
        persistentPreRunProfileCheck (Command.mk "status" (some RootCmd)) "abc" (fun _ => false)
          = .exited 1 ("Profile '" ++ "abc" ++ "' doesn't exist, Use 'minishift profile set "
              ++ "abc" ++ "' or 'minishift start --profile " ++ "abc" ++ "' to create")) ∧
      (¬ (∃ parent, (Command.mk "status" (some RootCmd)).Parent = some parent
            ∧ parent.Name ≠ profileCmd
            ∧ (Command.mk "status" (some RootCmd)).Name ≠ startCmd.Name) →
        persistentPreRunProfileCheck (Command.mk "status" (some RootCmd)) "abc" (fun _ => false)
          = .returned ())) ∧
    ((fun _ => false : String → Bool) "abc" = true →
      persistentPreRunProfileCheck (Command.mk "status" (some RootCmd)) "abc" (fun _ => false)
        = .returned ()) :=
  persistentPreRunProfileCheck_missing_profile (Command.mk "status" (some RootCmd)) "abc"
    (fun _ => false) (by decide) (by decide)

/-- C6 fails as stated: the `profile` command itself is not exempt, the check
ends the process for a profile that does not exist; and a command without
parent, which is neither `start` nor a profile command, passes the check. -/
theorem persistentPreRunProfileCheck_profileCmd_not_exempt :
    persistentPreRunProfileCheck (Command.mk "profile" (some RootCmd)) "abc" (fun _ => false)
      = .exited 1 "Profile 'abc' doesn't exist, Use 'minishift profile set abc' or 'minishift start --profile abc' to create" ∧
    persistentPreRunProfileCheck RootCmd "abc" (fun _ => false) = .returned () := by
  decide

/-! ## The post-update runner -/

theorem Remove_file_absent (markerPath : String) (w : World)
    (h : (os.Remove markerPath w).1 = none) :
    (os.Remove markerPath w).2.file markerPath = .absent := by
  unfold os.Remove at h ⊢
  split
  · rename_i heq
    rw [heq] at h
    simp at h
  · split
    · rename_i heq
      split at h
      · simp at h
      · rw [heq] at h
        simp at h
    · simp

theorem performPostUpdateExecution_of_readable (env : Collaborators) (markerPath : String)
    (w : World) (content : String) (hfile : w.file markerPath = .readable content) :
    performPostUpdateExecution env markerPath w
      = os.Remove markerPath (postUpdateActions env (env.jsonUnmarshal content) w) := by
  simp only [performPostUpdateExecution, ioutil.ReadFile, hfile]
  split <;> simp_all

theorem Remove_unpacked (markerPath : String) (w : World) :
    (os.Remove markerPath w).2.unpacked = w.unpacked := by
  unfold os.Remove
  split
  · rfl
  · split <;> rfl

/-- With no marker file, `performPostUpdateExecution` returns the error of
`ioutil.ReadFile` and leaves everything as it is. -/
theorem performPostUpdateExecution_no_marker (env : Collaborators) (markerPath : String)
    (w : World) (h : w.file markerPath = .absent) :
    performPostUpdateExecution env markerPath w
      = (some ("open " ++ markerPath ++ ": no such file or directory"), w) := by
  simp [performPostUpdateExecution, ioutil.ReadFile, h]

/-- C7: for a marker file that is present and readable,
`performPostUpdateExecution` calls the add-on installer exactly once when the
marker has `InstallAddon` set and not at all when it has not; and when the
deletion of the marker succeeds, the call returns no error and the marker
file is gone. -/
theorem performPostUpdateExecution_marker_readable (env : Collaborators) (markerPath : String)
    (w : World) (content : String) (hfile : w.file markerPath = .readable content) :
    ((env.jsonUnmarshal content).InstallAddon = true →
      (performPostUpdateExecution env markerPath w).2.unpacked
        = w.unpacked ++ [env.addonsDir]) ∧
    ((env.jsonUnmarshal content).InstallAddon = false →
      (performPostUpdateExecution env markerPath w).2.unpacked = w.unpacked) ∧
    ((os.Remove markerPath (postUpdateActions env (env.jsonUnmarshal content) w)).1 = none →
      (performPostUpdateExecution env markerPath w).1 = none ∧
      (performPostUpdateExecution env markerPath w).2.file markerPath = .absent) := by
  rw [performPostUpdateExecution_of_readable env markerPath w content hfile]
  refine ⟨fun h => ?_, fun h => ?_, fun h => ⟨h, Remove_file_absent _ _ h⟩⟩
  · rw [Remove_unpacked]
    simp [postUpdateActions, h, fmt.Println, fmt.Print, cmdUtil.UnpackAddons]
  · rw [Remove_unpacked]
    simp [postUpdateActions, h]

/-- C8: when no marker file exists, the post-update step of `PersistentPreRun`
(lines 135-140, which call `performPostUpdateExecution` only for a marker that
exists) succeeds and leaves everything as it is, no installer call and no file
change; and after a first run that succeeded, a second run does the same. -/
theorem persistentPreRunPostUpdate_no_marker (env : Collaborators) (markerPath : String)
    (w : World) :
    (w.file markerPath = .absent →
      persistentPreRunPostUpdate env markerPath w = (.returned (), w)) ∧
    (∀ w1, persistentPreRunPostUpdate env markerPath w = (.returned (), w1) →
      w1.file markerPath = .absent ∧
      persistentPreRunPostUpdate env markerPath w1 = (.returned (), w1)) := by
  have habsent : ∀ v : World, v.file markerPath = .absent →
      persistentPreRunPostUpdate env markerPath v = (.returned (), v) := by
    intro v hv
    simp [persistentPreRunPostUpdate, filehelper.Exists, hv]
  refine ⟨habsent w, fun w1 hrun => ?_⟩
  have hgone : w1.file markerPath = .absent := by
    cases hfile : w.file markerPath with
    | absent =>
      rw [habsent w hfile] at hrun
      cases hrun
      exact hfile
    | unreadable =>
      simp [persistentPreRunPostUpdate, filehelper.Exists, performPostUpdateExecution,
        ioutil.ReadFile, hfile] at hrun
    | readable content =>
      have hperf := performPostUpdateExecution_of_readable env markerPath w content hfile
      simp only [persistentPreRunPostUpdate, filehelper.Exists, hfile, if_true, hperf] at hrun
      have hdel := Remove_file_absent markerPath
        (postUpdateActions env (env.jsonUnmarshal content) w)
      split at hrun
      · simp at hrun
      · rename_i w2 heq
        simp only [Prod.mk.injEq, true_and] at hrun
        subst hrun
        rw [heq] at hdel
        exact hdel rfl
  exact ⟨hgone, habsent w1 hgone⟩

theorem performPostUpdateExecution_marker_readable_witness :
    (performPostUpdateExecution sampleCollaborators sampleMarkerPath
        (sampleWorld sampleMarker)).2.unpacked = [] ++ ["/home/dev/.minishift/addons"] ∧
    (performPostUpdateExecution sampleCollaborators sampleMarkerPath
        (sampleWorld "InstallAddon")).2.unpacked = [] ∧
    (performPostUpdateExecution sampleCollaborators sampleMarkerPath
        (sampleWorld sampleMarker)).1 = none ∧
    (performPostUpdateExecution sampleCollaborators sampleMarkerPath
        (sampleWorld sampleMarker)).2.file sampleMarkerPath = .absent :=
  ⟨(performPostUpdateExecution_marker_readable sampleCollaborators sampleMarkerPath
      (sampleWorld sampleMarker) sampleMarker (by decide)).1 (by decide),
    (performPostUpdateExecution_marker_readable sampleCollaborators sampleMarkerPath
      (sampleWorld "InstallAddon") "InstallAddon" (by decide)).2.1 (by decide),
    (performPostUpdateExecution_marker_readable sampleCollaborators sampleMarkerPath
      (sampleWorld sampleMarker) sampleMarker (by decide)).2.2 (by decide)⟩

theorem persistentPreRunPostUpdate_no_marker_witness :
    persistentPreRunPostUpdate sampleCollaborators sampleMarkerPath emptyWorld
      = (.returned (), emptyWorld) ∧
    persistentPreRunPostUpdate sampleCollaborators sampleMarkerPath
        (performPostUpdateExecution sampleCollaborators sampleMarkerPath
          (sampleWorld sampleMarker)).2
      = (.returned (), (performPostUpdateExecution sampleCollaborators sampleMarkerPath
          (sampleWorld sampleMarker)).2) :=
  ⟨(persistentPreRunPostUpdate_no_marker sampleCollaborators sampleMarkerPath emptyWorld).1 rfl,
    ((persistentPreRunPostUpdate_no_marker sampleCollaborators sampleMarkerPath
      (sampleWorld sampleMarker)).2 _ (by rfl)).2⟩


end Minishift
